import Mathlib

/-!
Verification of the zwift2fit FIT-file encoder.

This file gives a shallow embedding, in Lean 4, of the core of the
zwift2fit repository: the reverse-engineered FTP target formula
(`calculate_ftp_targets` in `src/fit_writer.py` and
`src/fit_target_utils.py`), the FIT CRC-16 engine
(`FITFileWriter._calculate_crc`), the binary message encoder
(`FITFileWriter._write_message_pair`), the file assembler
(`FITFileWriter.write_fit_file` / `_write_header`) and the
segment-to-step mapping (`FITFileWriter.create_workout_file`), together
with theorems settling the specification's claims about them.

Python `float` arithmetic is embedded as exact rational arithmetic over
`ℚ`, with Python's `int(...)` conversion embedded as truncation toward
zero; Python `int` is embedded as `ℤ`/`ℕ`; byte strings and files are
`List ℕ` with every element intended below 256; Python exceptions are
embedded through `Except String`.
-/

/- Batteries marks the arithmetic on `Rat` `@[irreducible]`, which stops
`decide` from evaluating concrete rational arithmetic; restore
reducibility locally so concrete instances of the encoder can be
evaluated inside proofs. -/
attribute [local semireducible] Rat.mul Rat.inv Rat.add Rat.sub Rat.ofScientific

set_option maxRecDepth 1000000

/-- Decidable equality for `Except`, used to evaluate the encoder on
concrete inputs inside proofs. -/
instance {ε α : Type} [DecidableEq ε] [DecidableEq α] : DecidableEq (Except ε α) :=
  fun a b =>
    match a, b with
    | .ok x, .ok y =>
      if h : x = y then .isTrue (by rw [h]) else .isFalse (by simp [h])
    | .error x, .error y =>
      if h : x = y then .isTrue (by rw [h]) else .isFalse (by simp [h])
    | .ok _, .error _ => .isFalse (by simp)
    | .error _, .ok _ => .isFalse (by simp)

namespace Zwift2Fit

/-- Python `int(x)` applied to a (here: exact rational) number:
truncation toward zero. -/
def pytrunc (q : ℚ) : ℤ := q.num.tdiv q.den

/-- On non-negative arguments Python `int(x)` agrees with the floor. -/
theorem pytrunc_eq_floor (q : ℚ) (hq : 0 ≤ q) : pytrunc q = ⌊q⌋ := by
  rw [pytrunc, Int.tdiv_eq_ediv (Rat.num_nonneg.mpr hq) (by positivity), Rat.floor_def]

theorem pytrunc_nonneg (q : ℚ) (hq : 0 ≤ q) : 0 ≤ pytrunc q := by
  rw [pytrunc_eq_floor q hq]
  exact Int.le_floor.mpr (by exact_mod_cast hq)

theorem pytrunc_le (q : ℚ) (hq : 0 ≤ q) : (pytrunc q : ℚ) ≤ q := by
  rw [pytrunc_eq_floor q hq]; exact Int.floor_le q

theorem pytrunc_mono {p q : ℚ} (hp : 0 ≤ p) (h : p ≤ q) : pytrunc p ≤ pytrunc q := by
  rw [pytrunc_eq_floor p hp, pytrunc_eq_floor q (le_trans hp h)]
  exact Int.floor_le_floor h

/-- Embedding of `calculate_ftp_targets` from `src/fit_writer.py`
(lines 15-63).  `power_high_fraction = none` embeds the Python default
argument `power_high_fraction=None`; the float arithmetic is embedded
exactly over `ℚ` and each `int(...)` is `pytrunc`. -/
def calculate_ftp_targets (power_low_fraction : ℚ) (ftp : ℚ)
    (power_high_fraction : Option ℚ := none) : ℤ × ℤ :=
  let power_high_fraction := power_high_fraction.getD power_low_fraction
  if power_low_fraction = power_high_fraction then
    -- Single power value (steady state, intervals)
    let midpoint : ℚ := 1000 + ftp * power_low_fraction
    let half_range : ℤ := pytrunc (0.2 * ftp * power_low_fraction / 2)
    (pytrunc (midpoint - half_range), pytrunc (midpoint + half_range))
  else
    -- Power range (warmup, cooldown): endpoints computed separately
    let low_midpoint : ℚ := 1000 + ftp * power_low_fraction
    let low_half_range : ℤ := pytrunc (0.2 * ftp * power_low_fraction / 2)
    let high_midpoint : ℚ := 1000 + ftp * power_high_fraction
    let high_half_range : ℤ := pytrunc (0.2 * ftp * power_high_fraction / 2)
    (pytrunc (low_midpoint - low_half_range), pytrunc (high_midpoint + high_half_range))

/-- Embedding of `calculate_ftp_targets` from `src/fit_target_utils.py`.
It differs from the `src/fit_writer.py` copy only in the leading
`if ftp is None: raise ValueError(...)` check (embedded through
`Option ℚ` and `Except`); the arithmetic afterwards is identical. -/
def calculate_ftp_targets_checked (power_low_fraction : ℚ) (ftp : Option ℚ)
    (power_high_fraction : Option ℚ := none) : Except String (ℤ × ℤ) :=
  match ftp with
  | none => .error "FTP must be provided to calculate FIT target values"
  | some ftp => .ok (calculate_ftp_targets power_low_fraction ftp power_high_fraction)

/-- The fixed 16-entry table of `FITFileWriter._calculate_crc`
(`src/fit_writer.py` lines 307-324). -/
def crc_table : List ℕ :=
  [0x0000, 0xCC01, 0xD801, 0x1400, 0xF001, 0x3C00, 0x2800, 0xE401,
   0xA001, 0x6C00, 0x7800, 0xB401, 0x5000, 0x9C01, 0x8801, 0x4400]

/-- One nibble of the CRC update:
`tmp = crc_table[crc & 0xF]; crc = (crc >> 4) & 0x0FFF; crc = crc ^ tmp ^ crc_table[nib]`. -/
def crc_nibble (crc nib : ℕ) : ℕ :=
  let tmp := crc_table.getD (crc &&& 0xF) 0
  let crc := (crc >>> 4) &&& 0x0FFF
  crc ^^^ tmp ^^^ crc_table.getD nib 0

/-- One byte of the CRC update: lower nibble first, then upper nibble
(`src/fit_writer.py` lines 327-336). -/
def crc_byte (crc b : ℕ) : ℕ :=
  crc_nibble (crc_nibble crc (b &&& 0xF)) ((b >>> 4) &&& 0xF)

/-- Embedding of `FITFileWriter._calculate_crc` (`src/fit_writer.py`
lines 297-338): fold the per-byte update over the data starting from
`crc = 0`, then mask with `0xFFFF`. -/
def calculate_crc (data : List ℕ) : ℕ := (data.foldl crc_byte 0) &&& 0xFFFF

/-- Little-endian bytes of a 16-bit value, as produced by
`struct.pack("<H", n)` for an in-range `n`. -/
def u16le_bytes (n : ℕ) : List ℕ := [n % 256, n / 256 % 256]

/-- Little-endian bytes of a 32-bit value, as produced by
`struct.pack("<I", n)` for an in-range `n`. -/
def u32le_bytes (n : ℕ) : List ℕ :=
  [n % 256, n / 256 % 256, n / 65536 % 256, n / 16777216 % 256]

/-- Embedding of `struct.pack("B", n)`: one byte when `0 <= n <= 255`
(matching on the `Int` constructor embeds the sign half of that range
check), `struct.error` otherwise. -/
def packU8 (n : ℤ) : Except String (List ℕ) :=
  match n with
  | .ofNat v => if v < 256 then .ok [v]
      else .error "ubyte format requires 0 <= number <= 255"
  | .negSucc _ => .error "ubyte format requires 0 <= number <= 255"

/-- Embedding of `struct.pack("<H", n)`: the range check of the `H`
format followed by the little-endian encoding. -/
def packU16 (n : ℤ) : Except String (List ℕ) :=
  match n with
  | .ofNat v => if v < 65536 then .ok (u16le_bytes v)
      else .error "ushort format requires 0 <= number <= 65535"
  | .negSucc _ => .error "ushort format requires 0 <= number <= 65535"

/-- Embedding of `struct.pack("<I", n)`: the range check of the `I`
format followed by the little-endian encoding. -/
def packU32 (n : ℤ) : Except String (List ℕ) :=
  match n with
  | .ofNat v => if v < 4294967296 then .ok (u32le_bytes v)
      else .error "argument out of range for uint format"
  | .negSucc _ => .error "argument out of range for uint format"

/-- A Python field value in a message tuple: either an `int` or a
`bytes` object (used for the NUL-padded name fields). -/
inductive FieldValue where
  | num (n : ℤ)
  | bytes (bs : List ℕ)
deriving DecidableEq, Repr

/-- One entry of `self.data_records`: the `global_type` together with
the `(field_number, field_type, field_value)` tuples. -/
structure DataRecord where
  global_type : ℕ
  fields : List (ℕ × String × FieldValue)
deriving DecidableEq, Repr

/-- The mutable writer state used by `_write_message_pair`:
`self.local_message_types` (a dict, embedded as an association list in
insertion order) and `self.next_local_type`. -/
structure WriterState where
  local_message_types : List (ℕ × ℕ)
  next_local_type : ℕ
deriving DecidableEq, Repr

/-- The three bytes of one field descriptor in a definition message
(`src/fit_writer.py` lines 261-280): field number, size, base type;
a field type outside the five supported ones raises
`ValueError("Unsupported field type: ...")`. -/
def field_def_bytes (fnum : ℕ) (field_type : String) (v : FieldValue) :
    Except String (List ℕ) :=
  match packU8 (fnum : ℤ) with
  | .error e => .error e
  | .ok fb =>
    if field_type = "string" then
      match v with
      | .bytes bs =>
        match packU8 (bs.length : ℤ) with
        | .error e => .error e
        | .ok sb => .ok (fb ++ sb ++ [7])
      | .num _ => .error "object of type int has no len()"
    else if field_type = "enum" then .ok (fb ++ [1, 0])
    else if field_type = "uint8" then .ok (fb ++ [1, 2])
    else if field_type = "uint16" then .ok (fb ++ [2, 132])
    else if field_type = "uint32" then .ok (fb ++ [4, 134])
    else .error ("Unsupported field type: " ++ field_type)

/-- The bytes one field contributes to the data message
(`src/fit_writer.py` lines 287-295).  Note the source's data loop has
no `else` branch: an unrecognized type contributes nothing here (it is
caught earlier, while the definition message is written). -/
def field_data_bytes (field_type : String) (v : FieldValue) :
    Except String (List ℕ) :=
  if field_type = "string" then
    match v with
    | .bytes bs => .ok bs
    | .num _ => .error "a bytes-like object is required"
  else if field_type = "enum" ∨ field_type = "uint8" then
    match v with
    | .num n => packU8 n
    | .bytes _ => .error "required argument is not an integer"
  else if field_type = "uint16" then
    match v with
    | .num n => packU16 n
    | .bytes _ => .error "required argument is not an integer"
  else if field_type = "uint32" then
    match v with
    | .num n => packU32 n
    | .bytes _ => .error "required argument is not an integer"
  else .ok []

/-- Concatenated field descriptors of a definition message, in field
order. -/
def fields_def_bytes : List (ℕ × String × FieldValue) → Except String (List ℕ)
  | [] => .ok []
  | (fnum, ftype, v) :: rest =>
    match field_def_bytes fnum ftype v with
    | .error e => .error e
    | .ok b =>
      match fields_def_bytes rest with
      | .error e => .error e
      | .ok bs => .ok (b ++ bs)

/-- Concatenated raw field values of a data message, in field order. -/
def fields_data_bytes : List (ℕ × String × FieldValue) → Except String (List ℕ)
  | [] => .ok []
  | (_, ftype, v) :: rest =>
    match field_data_bytes ftype v with
    | .error e => .error e
    | .ok b =>
      match fields_data_bytes rest with
      | .error e => .error e
      | .ok bs => .ok (b ++ bs)

/-- The local-type bookkeeping at the top of `_write_message_pair`
(`src/fit_writer.py` lines 246-250): reuse the dict entry for a known
`global_type`, otherwise assign `next_local_type` and advance it. -/
def assign_local_type (st : WriterState) (g : ℕ) : ℕ × WriterState :=
  match st.local_message_types.lookup g with
  | some lt => (lt, st)
  | none => (st.next_local_type,
      ⟨st.local_message_types ++ [(g, st.next_local_type)],
       st.next_local_type + 1⟩)

/-- The bytes `_write_message_pair` writes for one record once the local
type is fixed (`src/fit_writer.py` lines 252-295): the definition
message (header byte with the definition bit, reserved byte, the
little-endian architecture byte, global type, field count, one
descriptor per field) followed by the data message (header byte, raw
field values in the same order). -/
def message_pair_bytes (local_type : ℕ) (r : DataRecord) :
    Except String (List ℕ) :=
  match packU8 ((0x40 ||| local_type : ℕ) : ℤ) with
  | .error e => .error e
  | .ok defHdr =>
  match packU16 (r.global_type : ℤ) with
  | .error e => .error e
  | .ok gt =>
  match packU8 (r.fields.length : ℤ) with
  | .error e => .error e
  | .ok fc =>
  match fields_def_bytes r.fields with
  | .error e => .error e
  | .ok defFields =>
  match packU8 (local_type : ℤ) with
  | .error e => .error e
  | .ok dataHdr =>
  match fields_data_bytes r.fields with
  | .error e => .error e
  | .ok dataFields =>
    .ok (defHdr ++ [0, 0] ++ gt ++ fc ++ defFields ++ dataHdr ++ dataFields)

/-- Embedding of `FITFileWriter._write_message_pair` (`src/fit_writer.py`
lines 234-295): assign (or reuse) the local message type, then emit the
definition message followed by the data message. -/
def write_message_pair (st : WriterState) (r : DataRecord) :
    Except String (List ℕ × WriterState) :=
  match message_pair_bytes (assign_local_type st r.global_type).1 r with
  | .error e => .error e
  | .ok bs => .ok (bs, (assign_local_type st r.global_type).2)

/-- Serialize all queued records in order, threading the writer state. -/
def write_messages (st : WriterState) : List DataRecord →
    Except String (List ℕ × WriterState)
  | [] => .ok ([], st)
  | r :: rs =>
    match write_message_pair st r with
    | .error e => .error e
    | .ok (b, st') =>
      match write_messages st' rs with
      | .error e => .error e
      | .ok (bs, st'') => .ok (b ++ bs, st'')

/-- Embedding of `FITFileWriter._write_header` (`src/fit_writer.py`
lines 214-232): the real 14-byte header written over the placeholder. -/
def write_header (data_size : ℕ) : Except String (List ℕ) :=
  match packU32 (data_size : ℤ) with
  | .error e => .error e
  | .ok ds => .ok ([14, 32] ++ u16le_bytes 2105 ++ ds ++ [46, 70, 73, 84] ++ u16le_bytes 0)

/-- Embedding of `FITFileWriter.write_fit_file` (`src/fit_writer.py`
lines 163-212).  The result is the final content of the output file:
header, message body, then the little-endian CRC over header and body.
Exceptions inside the writing steps are re-raised as
`IOError("Error writing FIT file: ...")`; the empty-queue `ValueError`
is raised before that try block. -/
def write_fit_file (st : WriterState) (records : List DataRecord) :
    Except String (List ℕ) :=
  if records.isEmpty then
    .error "No messages to write. Add at least a file ID message."
  else
    match write_messages st records with
    | .error e => .error ("Error writing FIT file: " ++ e)
    | .ok (body, _) =>
      match write_header body.length with
      | .error e => .error ("Error writing FIT file: " ++ e)
      | .ok header =>
        .ok (header ++ body ++ u16le_bytes (calculate_crc (header ++ body)))

/-- The string-field preparation shared by `add_workout_message`
(`src/fit_writer.py` lines 103-105) and `add_workout_step` (lines
136-137): truncate the UTF-8 encoded bytes to at most 15 bytes, then
right-pad with NUL bytes to exactly 16 bytes. -/
def truncate_pad_16 (bs : List ℕ) : List ℕ :=
  let name_bytes := bs.take 15
  name_bytes ++ List.replicate (16 - name_bytes.length) 0

/-- UTF-8 encoding of one Unicode code point, byte values as `ℕ`. -/
def utf8_encode_char (c : ℕ) : List ℕ :=
  if c < 0x80 then [c]
  else if c < 0x800 then
    [0xC0 ||| (c >>> 6), 0x80 ||| (c &&& 0x3F)]
  else if c < 0x10000 then
    [0xE0 ||| (c >>> 12), 0x80 ||| ((c >>> 6) &&& 0x3F), 0x80 ||| (c &&& 0x3F)]
  else
    [0xF0 ||| (c >>> 18), 0x80 ||| ((c >>> 12) &&& 0x3F),
     0x80 ||| ((c >>> 6) &&& 0x3F), 0x80 ||| (c &&& 0x3F)]

/-- Embedding of Python `s.encode("utf-8")` as a byte list. -/
def utf8_bytes (s : String) : List ℕ :=
  s.data.foldr (fun c acc => utf8_encode_char c.toNat ++ acc) []

/-- Embedding of the `WorkoutSegment` dataclass from
`src/zwo_parser.py` (the fields the writer consumes; power fractions as
exact rationals, `none` embedding Python `None`). -/
structure WorkoutSegment where
  type : String
  duration : ℕ
  power : Option ℚ := none
  power_start : Option ℚ := none
  power_end : Option ℚ := none
deriving DecidableEq, Repr

/-- Rounding to the nearest integer with ties to even, as Python's
`format(x, ".0f")` does on the exact value (idealizing the underlying
binary float). -/
def round_half_even (q : ℚ) : ℤ :=
  let f := q.num.fdiv q.den
  let frac := q - f
  if frac < 1/2 then f
  else if 1/2 < frac then f + 1
  else if f % 2 = 0 then f else f + 1

/-- Embedding of the f-string fragment `f"...percent * 100:.0f..."` used
for step names: the percentage of FTP rendered without decimals. -/
def fmt_pct (q : ℚ) : String := toString (round_half_even (q * 100))

/-- The fields added by `add_file_id_message` (`src/fit_writer.py` lines
80-93).  The source reads the creation time from the wall clock as
`int(datetime.datetime.now().timestamp())`; here that value is the
explicit `timestamp` argument. -/
def file_id_fields (timestamp : ℕ) : List (ℕ × String × FieldValue) :=
  [(0, "enum", .num 4),
   (1, "uint16", .num 1),
   (2, "uint16", .num 1),
   (3, "uint32", .num (timestamp : ℤ))]

/-- The record queued by `add_file_id_message`, global type 0. -/
def file_id_record (timestamp : ℕ) : DataRecord :=
  ⟨0, file_id_fields timestamp⟩

/-- The record queued by `add_workout_message` (`src/fit_writer.py`
lines 95-112), global type 26. -/
def workout_record (name : String) (num_steps : ℕ) : DataRecord :=
  ⟨26, [(4, "string", .bytes (truncate_pad_16 (utf8_bytes name))),
        (5, "enum", .num 0),
        (6, "uint16", .num (num_steps : ℤ))]⟩

/-- The record queued by `add_workout_step` (`src/fit_writer.py` lines
114-151), global type 27. -/
def workout_step_record (step_index : ℕ) (step_name : String)
    (duration_type : ℕ) (duration_value : ℕ)
    (target_low target_high : ℤ) (intensity : ℕ) : DataRecord :=
  ⟨27, [(254, "uint16", .num (step_index : ℤ)),
        (0, "string", .bytes (truncate_pad_16 (utf8_bytes step_name))),
        (1, "enum", .num (duration_type : ℤ)),
        (2, "uint32", .num (duration_value : ℤ)),
        (3, "enum", .num 4),
        (4, "uint32", .num 0),
        (5, "uint32", .num target_low),
        (6, "uint32", .num target_high),
        (7, "enum", .num (intensity : ℤ))]⟩

/-- Accessing a power attribute that the parser left as `None` raises a
`TypeError` inside the arithmetic of `create_workout_file`. -/
def require_power (p : Option ℚ) : Except String ℚ :=
  match p with
  | some q => .ok q
  | none => .error "unsupported operand type(s) for *: NoneType and int"

/-- One iteration of the segment loop of `create_workout_file`
(`src/fit_writer.py` lines 384-439): derive duration, targets,
intensity and step name for the segment at 0-based index `i` and queue
the step record. -/
def build_step (ftp : ℚ) (i : ℕ) (seg : WorkoutSegment) :
    Except String DataRecord :=
  let duration_value := seg.duration * 1000
  if seg.type = "warmup" then
    match require_power seg.power_start with
    | .error e => .error e
    | .ok ps =>
      match require_power seg.power_end with
      | .error e => .error e
      | .ok pe =>
        let t := calculate_ftp_targets ps ftp (some pe)
        .ok (workout_step_record i ("Warmup " ++ fmt_pct ps ++ "-" ++ fmt_pct pe ++ "%")
              0 duration_value t.1 t.2 2)
  else if seg.type = "cooldown" then
    match require_power seg.power_start with
    | .error e => .error e
    | .ok ps =>
      match require_power seg.power_end with
      | .error e => .error e
      | .ok pe =>
        let t := calculate_ftp_targets ps ftp (some pe)
        .ok (workout_step_record i ("Cooldown " ++ fmt_pct ps ++ "-" ++ fmt_pct pe ++ "%")
              0 duration_value t.1 t.2 3)
  else if seg.type = "steady" then
    match require_power seg.power with
    | .error e => .error e
    | .ok p =>
      let t := calculate_ftp_targets p ftp
      .ok (workout_step_record i ("Steady " ++ fmt_pct p ++ "%") 0 duration_value t.1 t.2 0)
  else if seg.type = "interval_work" then
    match require_power seg.power with
    | .error e => .error e
    | .ok p =>
      let t := calculate_ftp_targets p ftp
      .ok (workout_step_record i ("Work " ++ fmt_pct p ++ "%") 0 duration_value t.1 t.2 0)
  else if seg.type = "interval_rest" then
    match require_power seg.power with
    | .error e => .error e
    | .ok p =>
      let t := calculate_ftp_targets p ftp
      .ok (workout_step_record i ("Rest " ++ fmt_pct p ++ "%") 0 duration_value t.1 t.2 1)
  else
    -- Default case - use 50% FTP
    let t := calculate_ftp_targets 0.5 ftp
    .ok (workout_step_record i ("Step " ++ toString (i + 1)) 0 duration_value t.1 t.2 0)

/-- The whole segment loop, with `i` the index of the first segment of
the remaining list. -/
def build_steps (ftp : ℚ) (i : ℕ) : List WorkoutSegment →
    Except String (List DataRecord)
  | [] => .ok []
  | seg :: rest =>
    match build_step ftp i seg with
    | .error e => .error e
    | .ok r =>
      match build_steps ftp (i + 1) rest with
      | .error e => .error e
      | .ok rs => .ok (r :: rs)

/-- Embedding of `FITFileWriter.create_workout_file` (`src/fit_writer.py`
lines 346-442).  The output path plays no role in the byte-level model;
the result is the content of the file that would be written.  `clear()`
is embedded by starting `write_fit_file` from the empty writer state;
the wall-clock creation time read by `add_file_id_message` is the
explicit `timestamp` argument. -/
def create_workout_file (segments : List WorkoutSegment)
    (workout_name : String) (ftp : ℚ) (timestamp : ℕ) :
    Except String (List ℕ) :=
  if segments.isEmpty then
    .error "No segments provided. Cannot create empty workout."
  else
    match build_steps ftp 0 segments with
    | .error e => .error e
    | .ok steps =>
      write_fit_file ⟨[], 0⟩
        (file_id_record timestamp :: workout_record workout_name segments.length :: steps)

/-! Theorems. -/

/-- Modelled from the spec: `midpoint(f) = 1000 + ftp_watts * f` (§4.1). -/
def midpoint_spec (ftp f : ℚ) : ℚ := 1000 + ftp * f

/-- Modelled from the spec: `half_range(f) = trunc(0.2 * ftp_watts * f / 2)` (§4.1). -/
def half_range_spec (ftp f : ℚ) : ℤ := pytrunc (0.2 * ftp * f / 2)

/-- Modelled from the spec's words in §4.1: equal fractions use one
midpoint and half range; differing fractions compute each endpoint from
its own fraction independently. -/
def compute_target_spec (power_low power_high ftp : ℚ) : ℤ × ℤ :=
  if power_low = power_high then
    (pytrunc (midpoint_spec ftp power_low - half_range_spec ftp power_low),
     pytrunc (midpoint_spec ftp power_low + half_range_spec ftp power_low))
  else
    (pytrunc (midpoint_spec ftp power_low - half_range_spec ftp power_low),
     pytrunc (midpoint_spec ftp power_high + half_range_spec ftp power_high))

/-- C1: `compute_target` implements the reverse-engineered transform
exactly: with `midpoint(f) = 1000 + ftp * f` and
`half_range(f) = trunc(0.2 * ftp * f / 2)` (truncation toward zero at
each step), equal fractions yield
`(trunc(midpoint - half_range), trunc(midpoint + half_range))` and
differing fractions compute each endpoint from its own fraction
independently; in particular `compute_target(0.5, ftp=280) = (1126, 1154)`,
`compute_target(0.75, ftp=280) = (1189, 1231)` and
`compute_target(0.5, ftp=280, power_high=0.75) = (1126, 1231)`. -/
theorem calculate_ftp_targets_correct :
    (∀ fl fh ftp : ℚ, calculate_ftp_targets fl ftp (some fh) = compute_target_spec fl fh ftp)
    ∧ (∀ fl ftp : ℚ, calculate_ftp_targets fl ftp none = compute_target_spec fl fl ftp)
    ∧ calculate_ftp_targets 0.5 280 = (1126, 1154)
    ∧ calculate_ftp_targets 0.75 280 = (1189, 1231)
    ∧ calculate_ftp_targets 0.5 280 (some 0.75) = (1126, 1231) :=
  ⟨fun _ _ _ => rfl, fun _ _ => rfl, by decide, by decide, by decide⟩

/-- C2: the CRC engine is the table-driven, nibble-at-a-time 16-bit
checksum over the fixed 16-entry table, processing the lower then the
upper nibble of each byte from `crc = 0`, masked to 16 bits; it is a
deterministic pure function of the byte sequence and the empty input
yields `0x0000`. -/
theorem calculate_crc_correct :
    crc_table = [0x0000, 0xCC01, 0xD801, 0x1400, 0xF001, 0x3C00, 0x2800, 0xE401,
                 0xA001, 0x6C00, 0x7800, 0xB401, 0x5000, 0x9C01, 0x8801, 0x4400]
    ∧ calculate_crc [] = 0
    ∧ (∀ data : List ℕ, calculate_crc data = (data.foldl crc_byte 0) &&& 0xFFFF)
    ∧ (∀ data b, calculate_crc (data ++ [b]) = crc_byte (data.foldl crc_byte 0) b &&& 0xFFFF)
    ∧ (∀ data : List ℕ, calculate_crc data < 65536)
    ∧ (∀ d₁ d₂ : List ℕ, d₁ = d₂ → calculate_crc d₁ = calculate_crc d₂) := by
  refine ⟨rfl, rfl, fun _ => rfl, fun data b => ?_, fun data => ?_, fun _ _ h => by rw [h]⟩
  · rw [calculate_crc, List.foldl_append, List.foldl_cons, List.foldl_nil]
  · have h := @Nat.and_le_right (List.foldl crc_byte 0 data) 65535
    rw [calculate_crc]
    omega

/-- C4 (counterexample): with a present but non-positive FTP the
function does not fail: `ftp = 0` is accepted and yields `(1000, 1000)`,
refuting "fails whenever ftp_watts is absent or non-positive". -/
theorem calculate_ftp_targets_checked_zero_ftp :
    calculate_ftp_targets_checked 0.5 (some 0) none = .ok (1000, 1000) := rfl

/-- C4 (amended): the checked target computation fails (with the
`ValueError` of `src/fit_target_utils.py` line 32-33) precisely when the
FTP argument is absent (`None`); any present FTP value — zero or
negative included — and any negative fraction are accepted and
propagate through the arithmetic. -/
theorem calculate_ftp_targets_checked_error_iff :
    ∀ (f : ℚ) (ftp : Option ℚ) (fh : Option ℚ),
      (∃ e, calculate_ftp_targets_checked f ftp fh = .error e) ↔ ftp = none := by
  intro f ftp fh
  cases ftp with
  | none => exact ⟨fun _ => rfl, fun _ => ⟨_, rfl⟩⟩
  | some v =>
    constructor
    · rintro ⟨e, he⟩
      simp [calculate_ftp_targets_checked] at he
    · intro h
      simp at h

theorem calculate_ftp_targets_some_eq (fl fh ftp : ℚ) (h : fl ≠ fh) :
    calculate_ftp_targets fl ftp (some fh) =
      (pytrunc (1000 + ftp * fl - (pytrunc (0.2 * ftp * fl / 2) : ℚ)),
       pytrunc (1000 + ftp * fh + (pytrunc (0.2 * ftp * fh / 2) : ℚ))) := by
  simp [calculate_ftp_targets, h]

theorem calculate_ftp_targets_single_eq (fl fh ftp : ℚ) (h : fl = fh) :
    calculate_ftp_targets fl ftp (some fh) =
      (pytrunc (1000 + ftp * fl - (pytrunc (0.2 * ftp * fl / 2) : ℚ)),
       pytrunc (1000 + ftp * fl + (pytrunc (0.2 * ftp * fl / 2) : ℚ))) := by
  subst h; simp [calculate_ftp_targets]

theorem calculate_ftp_targets_none_eq (fl ftp : ℚ) :
    calculate_ftp_targets fl ftp none =
      (pytrunc (1000 + ftp * fl - (pytrunc (0.2 * ftp * fl / 2) : ℚ)),
       pytrunc (1000 + ftp * fl + (pytrunc (0.2 * ftp * fl / 2) : ℚ))) := by
  simp [calculate_ftp_targets]

theorem half_range_arg_nonneg (ftp f : ℚ) (hftp : 0 ≤ ftp) (hf : 0 ≤ f) :
    (0 : ℚ) ≤ 0.2 * ftp * f / 2 := by
  have h02 : (0 : ℚ) ≤ 0.2 := by norm_num
  exact div_nonneg (mul_nonneg (mul_nonneg h02 hftp) hf) (by norm_num)

theorem half_range_le_prod (ftp f : ℚ) (hftp : 0 ≤ ftp) (hf : 0 ≤ f) :
    (pytrunc (0.2 * ftp * f / 2) : ℚ) ≤ ftp * f := by
  have harg := half_range_arg_nonneg ftp f hftp hf
  have h1 := pytrunc_le _ harg
  have hprod : (0 : ℚ) ≤ ftp * f := mul_nonneg hftp hf
  nlinarith

theorem target_low_nonneg (ftp f : ℚ) (hftp : 0 ≤ ftp) (hf : 0 ≤ f) :
    0 ≤ pytrunc (1000 + ftp * f - (pytrunc (0.2 * ftp * f / 2) : ℚ)) := by
  apply pytrunc_nonneg
  have h := half_range_le_prod ftp f hftp hf
  linarith

theorem target_high_nonneg (ftp f : ℚ) (hftp : 0 ≤ ftp) (hf : 0 ≤ f) :
    0 ≤ pytrunc (1000 + ftp * f + (pytrunc (0.2 * ftp * f / 2) : ℚ)) := by
  apply pytrunc_nonneg
  have h0 := pytrunc_nonneg _ (half_range_arg_nonneg ftp f hftp hf)
  have h0' : (0 : ℚ) ≤ (pytrunc (0.2 * ftp * f / 2) : ℚ) := by exact_mod_cast h0
  have hprod : (0 : ℚ) ≤ ftp * f := mul_nonneg hftp hf
  linarith

theorem target_low_le_high (ftp fl fh : ℚ) (hftp : 0 ≤ ftp) (hfl : 0 ≤ fl)
    (hlh : fl ≤ fh) :
    pytrunc (1000 + ftp * fl - (pytrunc (0.2 * ftp * fl / 2) : ℚ)) ≤
      pytrunc (1000 + ftp * fh + (pytrunc (0.2 * ftp * fh / 2) : ℚ)) := by
  have hfh : 0 ≤ fh := le_trans hfl hlh
  have hl0 : (0 : ℚ) ≤ (pytrunc (0.2 * ftp * fl / 2) : ℚ) := by
    exact_mod_cast pytrunc_nonneg _ (half_range_arg_nonneg ftp fl hftp hfl)
  have hh0 : (0 : ℚ) ≤ (pytrunc (0.2 * ftp * fh / 2) : ℚ) := by
    exact_mod_cast pytrunc_nonneg _ (half_range_arg_nonneg ftp fh hftp hfh)
  have hle := half_range_le_prod ftp fl hftp hfl
  have hmono : ftp * fl ≤ ftp * fh := mul_le_mul_of_nonneg_left hlh hftp
  apply pytrunc_mono
  · linarith [mul_nonneg hftp hfl]
  · linarith

/-- C5 (counterexample): for the descending cooldown pair named by the
claim itself — `power_start 0.6`, `power_end 0.4` at `ftp = 250` — the
code returns `target_low = 1135 > 1110 = target_high`, refuting
"target_low <= target_high also for low/high fraction pairs". -/
theorem calculate_ftp_targets_descending_counterexample :
    calculate_ftp_targets 0.6 250 (some 0.4) = (1135, 1110) ∧ (1110 : ℤ) < 1135 :=
  ⟨by decide, by decide⟩

/-- C5 (amended): for `ftp > 0` and non-negative fractions both targets
are non-negative; `target_low <= target_high` holds for a single
fraction (equal low/high) and for pairs with
`power_low_fraction <= power_high_fraction`, while a descending pair
(such as a cooldown from 0.6 down to 0.4) can yield
`target_low > target_high` because each endpoint is computed from its
own fraction. -/
theorem calculate_ftp_targets_ordered :
    ∀ fl fh ftp : ℚ, 0 < ftp → 0 ≤ fl → 0 ≤ fh →
      (0 ≤ (calculate_ftp_targets fl ftp (some fh)).1
       ∧ 0 ≤ (calculate_ftp_targets fl ftp (some fh)).2
       ∧ (fl ≤ fh →
          (calculate_ftp_targets fl ftp (some fh)).1 ≤ (calculate_ftp_targets fl ftp (some fh)).2))
      ∧ (0 ≤ (calculate_ftp_targets fl ftp none).1
       ∧ 0 ≤ (calculate_ftp_targets fl ftp none).2
       ∧ (calculate_ftp_targets fl ftp none).1 ≤ (calculate_ftp_targets fl ftp none).2) := by
  intro fl fh ftp hftp hfl hfh
  have hftp' : 0 ≤ ftp := le_of_lt hftp
  constructor
  · by_cases h : fl = fh
    · rw [calculate_ftp_targets_single_eq fl fh ftp h]
      exact ⟨target_low_nonneg ftp fl hftp' hfl, target_high_nonneg ftp fl hftp' hfl,
        fun _ => target_low_le_high ftp fl fl hftp' hfl le_rfl⟩
    · rw [calculate_ftp_targets_some_eq fl fh ftp h]
      exact ⟨target_low_nonneg ftp fl hftp' hfl, target_high_nonneg ftp fh hftp' hfh,
        fun hlh => target_low_le_high ftp fl fh hftp' hfl hlh⟩
  · rw [calculate_ftp_targets_none_eq fl ftp]
    exact ⟨target_low_nonneg ftp fl hftp' hfl, target_high_nonneg ftp fl hftp' hfl,
      target_low_le_high ftp fl fl hftp' hfl le_rfl⟩

theorem calculate_ftp_targets_ordered_witness :
    0 ≤ (calculate_ftp_targets 0.5 280 (some 0.75)).1
    ∧ 0 ≤ (calculate_ftp_targets 0.5 280 (some 0.75)).2
    ∧ (calculate_ftp_targets 0.5 280 (some 0.75)).1 ≤ (calculate_ftp_targets 0.5 280 (some 0.75)).2 := by
  obtain ⟨⟨h1, h2, h3⟩, _⟩ :=
    calculate_ftp_targets_ordered 0.5 0.75 280 (by decide) (by decide) (by decide)
  exact ⟨h1, h2, h3 (by decide)⟩

/-- C6: encoding an empty segment sequence fails with the `NoSegments`
condition immediately — before the file-id message, the placeholder
header or any byte of output is produced — so no output file content
exists for an empty workout. -/
theorem create_workout_file_empty (name : String) (ftp : ℚ) (ts : ℕ) :
    create_workout_file [] name ftp ts =
      .error "No segments provided. Cannot create empty workout." := rfl

/-- C7: every string field is encoded by truncating the UTF-8 bytes to
at most 15 bytes and right-padding with NUL bytes to exactly 16 bytes,
and the transform is idempotent on its own output. -/
theorem truncate_pad_16_correct :
    ∀ bs : List ℕ,
      truncate_pad_16 bs = bs.take 15 ++ List.replicate (16 - (bs.take 15).length) 0
      ∧ (truncate_pad_16 bs).length = 16
      ∧ truncate_pad_16 (truncate_pad_16 bs) = truncate_pad_16 bs := by
  intro bs
  have hlen : (bs.take 15).length ≤ 15 := by
    rw [List.length_take]; omega
  refine ⟨rfl, ?_, ?_⟩
  · rw [truncate_pad_16]
    rw [List.length_append, List.length_replicate]
    omega
  · rw [truncate_pad_16, truncate_pad_16]
    have htake : ((bs.take 15 ++ List.replicate (16 - (bs.take 15).length) 0).take 15)
        = bs.take 15 ++ List.replicate (15 - (bs.take 15).length) 0 := by
      rw [List.take_append_eq_append_take, List.take_of_length_le hlen, List.take_replicate]
      congr 1
      congr 1
      omega
    rw [htake]
    rw [List.length_append, List.length_replicate]
    rw [List.append_assoc, ← List.replicate_add]
    congr 2
    omega

/-- C8: a segment whose kind is none of the five recognized kinds does
not abort the encode: the loop body succeeds and falls back to the
50%-FTP target pair, Active intensity (code 0) and the default step
name built from the 1-based index. -/
theorem build_step_fallback :
    ∀ (ftp : ℚ) (i : ℕ) (seg : WorkoutSegment),
      seg.type ∉ (["warmup", "cooldown", "steady", "interval_work", "interval_rest"] : List String) →
      build_step ftp i seg =
        .ok (workout_step_record i ("Step " ++ toString (i + 1)) 0 (seg.duration * 1000)
              (calculate_ftp_targets 0.5 ftp).1 (calculate_ftp_targets 0.5 ftp).2 0) := by
  intro ftp i seg h
  simp only [List.mem_cons, List.not_mem_nil, or_false, not_or] at h
  obtain ⟨h1, h2, h3, h4, h5⟩ := h
  simp [build_step, h1, h2, h3, h4, h5]

theorem build_step_fallback_witness :
    build_step 250 0 { type := "freeride", duration := 120 } =
      .ok (workout_step_record 0 ("Step " ++ toString (0 + 1)) 0 (120 * 1000)
            (calculate_ftp_targets 0.5 250).1 (calculate_ftp_targets 0.5 250).2 0) :=
  build_step_fallback 250 0 { type := "freeride", duration := 120 } (by decide)

/-- The five field types the serializer supports (`"string"`, `"enum"`,
`"uint8"`, `"uint16"`, `"uint32"`). -/
def supported_field_types : List String :=
  ["enum", "uint8", "uint16", "uint32", "string"]

theorem field_def_bytes_unsupported (fnum : ℕ) (ftype : String) (v : FieldValue)
    (h : ftype ∉ supported_field_types) :
    ∃ e, field_def_bytes fnum ftype v = .error e := by
  simp only [supported_field_types, List.mem_cons, List.not_mem_nil, or_false,
    not_or] at h
  obtain ⟨h1, h2, h3, h4, h5⟩ := h
  cases hp : packU8 (fnum : ℤ) with
  | error e => exact ⟨e, by unfold field_def_bytes; rw [hp]⟩
  | ok fb =>
    exact ⟨"Unsupported field type: " ++ ftype, by
      unfold field_def_bytes; rw [hp]; simp [h1, h2, h3, h4, h5]⟩

theorem fields_def_bytes_unsupported :
    ∀ (fields : List (ℕ × String × FieldValue)),
      (∃ f, f ∈ fields ∧ f.2.1 ∉ supported_field_types) →
      ∃ e, fields_def_bytes fields = .error e := by
  intro fields
  induction fields with
  | nil => rintro ⟨f, hf, _⟩; exact absurd hf (List.not_mem_nil f)
  | cons hd tl ih =>
    rintro ⟨f, hf, hns⟩
    obtain ⟨fnum, ftype, v⟩ := hd
    cases hfd : field_def_bytes fnum ftype v with
    | error e => exact ⟨e, by unfold fields_def_bytes; rw [hfd]⟩
    | ok b =>
      rcases List.mem_cons.mp hf with heq | hmem
      · subst heq
        obtain ⟨e, he⟩ := field_def_bytes_unsupported fnum ftype v hns
        rw [he] at hfd
        cases hfd
      · obtain ⟨e, he⟩ := ih ⟨f, hmem, hns⟩
        exact ⟨e, by unfold fields_def_bytes; rw [hfd, he]⟩

theorem message_pair_bytes_unsupported (local_type : ℕ) (r : DataRecord)
    (hex : ∃ f, f ∈ r.fields ∧ f.2.1 ∉ supported_field_types) :
    ∃ e, message_pair_bytes local_type r = .error e := by
  obtain ⟨e0, he0⟩ := fields_def_bytes_unsupported r.fields hex
  cases h1 : packU8 ((0x40 ||| local_type : ℕ) : ℤ) with
  | error e => exact ⟨e, by unfold message_pair_bytes; rw [h1]⟩
  | ok b1 =>
    cases h2 : packU16 (r.global_type : ℤ) with
    | error e => exact ⟨e, by unfold message_pair_bytes; rw [h1, h2]⟩
    | ok b2 =>
      cases h3 : packU8 (r.fields.length : ℤ) with
      | error e => exact ⟨e, by unfold message_pair_bytes; rw [h1, h2, h3]⟩
      | ok b3 => exact ⟨e0, by unfold message_pair_bytes; rw [h1, h2, h3, he0]⟩

/-- C9: serializing a message pair containing any field whose type lies
outside the supported set fails with the `UnsupportedFieldType`
condition (or an earlier error from the same pair); no such message
pair is ever serialized successfully, so the field cannot be silently
ignored. -/
theorem write_message_pair_unsupported :
    ∀ (st : WriterState) (r : DataRecord),
      (∃ f, f ∈ r.fields ∧ f.2.1 ∉ supported_field_types) →
      ∃ e, write_message_pair st r = .error e := by
  intro st r hex
  obtain ⟨e, he⟩ := message_pair_bytes_unsupported (assign_local_type st r.global_type).1 r hex
  exact ⟨e, by unfold write_message_pair; rw [he]⟩

theorem write_message_pair_unsupported_witness :
    ∃ e, write_message_pair ⟨[], 0⟩ ⟨0, [(0, "float32", .num 1)]⟩ = .error e :=
  write_message_pair_unsupported ⟨[], 0⟩ ⟨0, [(0, "float32", .num 1)]⟩
    ⟨(0, "float32", FieldValue.num 1), by decide, by decide⟩

theorem packU32_natCast (t : ℕ) :
    packU32 (t : ℤ) = if t < 4294967296 then .ok (u32le_bytes t)
      else .error "argument out of range for uint format" := rfl

theorem write_header_eq (n : ℕ) :
    write_header n =
      if n < 4294967296 then
        .ok ([14, 32] ++ u16le_bytes 2105 ++ u32le_bytes n ++ [46, 70, 73, 84] ++ u16le_bytes 0)
      else .error "argument out of range for uint format" := by
  unfold write_header
  rw [packU32_natCast]
  by_cases h : n < 4294967296
  · rw [if_pos h, if_pos h]
  · rw [if_neg h, if_neg h]

/-- C3: every successfully written file is the 14-byte header — header
size 14, protocol version 32, little-endian profile version 2105, the
little-endian body size, ASCII ".FIT", two zero bytes — followed by the
message body, followed by the little-endian CRC-16 over all preceding
bytes; hence the total size is 14 + body size + 2. -/
theorem write_fit_file_layout :
    ∀ (st : WriterState) (records : List DataRecord) (file : List ℕ),
      write_fit_file st records = .ok file →
      ∃ body : List ℕ,
        body.length < 4294967296
        ∧ u16le_bytes 2105 = [57, 8]
        ∧ file = ([14, 32] ++ u16le_bytes 2105 ++ u32le_bytes body.length
              ++ [46, 70, 73, 84] ++ u16le_bytes 0) ++ body
            ++ u16le_bytes (calculate_crc
              (([14, 32] ++ u16le_bytes 2105 ++ u32le_bytes body.length
                ++ [46, 70, 73, 84] ++ u16le_bytes 0) ++ body))
        ∧ file.length = 14 + body.length + 2 := by
  intro st records file h
  unfold write_fit_file at h
  by_cases hemp : records.isEmpty
  · rw [if_pos hemp] at h
    simp at h
  · rw [if_neg hemp] at h
    cases hm : write_messages st records with
    | error e => rw [hm] at h; simp at h
    | ok p =>
      obtain ⟨body, st2⟩ := p
      rw [hm] at h
      simp only [] at h
      rw [write_header_eq] at h
      by_cases hlen : body.length < 4294967296
      · rw [if_pos hlen] at h
        simp only [Except.ok.injEq] at h
        subst h
        refine ⟨body, hlen, rfl, rfl, ?_⟩
        simp [u16le_bytes, u32le_bytes]
        omega
      · rw [if_neg hlen] at h
        simp at h

theorem write_fit_file_layout_witness :
    ∃ body : List ℕ,
      body.length < 4294967296
      ∧ u16le_bytes 2105 = [57, 8]
      ∧ ([14, 32, 57, 8, 28, 0, 0, 0, 46, 70, 73, 84, 0, 0, 64, 0, 0, 0, 0, 4, 0, 1, 0, 1,
          2, 132, 2, 2, 132, 3, 4, 134, 0, 4, 1, 0, 1, 0, 0, 0, 0, 0, 33, 137] : List ℕ)
          = ([14, 32] ++ u16le_bytes 2105 ++ u32le_bytes body.length
              ++ [46, 70, 73, 84] ++ u16le_bytes 0) ++ body
            ++ u16le_bytes (calculate_crc
              (([14, 32] ++ u16le_bytes 2105 ++ u32le_bytes body.length
                ++ [46, 70, 73, 84] ++ u16le_bytes 0) ++ body))
      ∧ ([14, 32, 57, 8, 28, 0, 0, 0, 46, 70, 73, 84, 0, 0, 64, 0, 0, 0, 0, 4, 0, 1, 0, 1,
          2, 132, 2, 2, 132, 3, 4, 134, 0, 4, 1, 0, 1, 0, 0, 0, 0, 0, 33, 137] : List ℕ).length
          = 14 + body.length + 2 :=
  write_fit_file_layout ⟨[], 0⟩ [file_id_record 0]
    [14, 32, 57, 8, 28, 0, 0, 0, 46, 70, 73, 84, 0, 0, 64, 0, 0, 0, 0, 4, 0, 1, 0, 1,
     2, 132, 2, 2, 132, 3, 4, 134, 0, 4, 1, 0, 1, 0, 0, 0, 0, 0, 33, 137] rfl

/-- The 24 bytes of the file-id message pair that precede the 4
timestamp bytes: definition header, reserved, architecture, global
type 0, field count 4, the four field descriptors, the data header and
the `enum`, `uint16`, `uint16` field values. -/
def fid_def_head : List ℕ :=
  [64, 0, 0, 0, 0, 4, 0, 1, 0, 1, 2, 132, 2, 2, 132, 3, 4, 134, 0, 4, 1, 0, 1, 0]

theorem message_pair_bytes_file_id (t : ℕ) :
    message_pair_bytes 0 (file_id_record t) =
      if t < 4294967296 then .ok (fid_def_head ++ u32le_bytes t)
      else .error "argument out of range for uint format" := by
  have e4 : field_data_bytes "uint32" (.num (t : ℤ)) = packU32 (t : ℤ) := rfl
  by_cases ht : t < 4294967296
  · have hp : packU32 ((t : ℕ) : ℤ) = .ok (u32le_bytes t) := by
      rw [packU32_natCast, if_pos ht]
    rw [if_pos ht]
    unfold message_pair_bytes
    simp [file_id_record, file_id_fields, fields_def_bytes, field_def_bytes,
      fields_data_bytes, field_data_bytes, packU8, packU16, hp, fid_def_head, u16le_bytes]
  · have hp : packU32 ((t : ℕ) : ℤ) = .error "argument out of range for uint format" := by
      rw [packU32_natCast, if_neg ht]
    rw [if_neg ht]
    unfold message_pair_bytes
    simp [file_id_record, file_id_fields, fields_def_bytes, field_def_bytes,
      fields_data_bytes, field_data_bytes, packU8, packU16, hp]

theorem write_message_pair_file_id (t : ℕ) :
    write_message_pair ⟨[], 0⟩ (file_id_record t) =
      if t < 4294967296 then .ok (fid_def_head ++ u32le_bytes t, ⟨[(0, 0)], 1⟩)
      else .error "argument out of range for uint format" := by
  have ha1 : (assign_local_type ⟨[], 0⟩ (file_id_record t).global_type).1 = 0 := rfl
  have ha2 : (assign_local_type ⟨[], 0⟩ (file_id_record t).global_type).2 = ⟨[(0, 0)], 1⟩ := rfl
  unfold write_message_pair
  rw [ha1, ha2, message_pair_bytes_file_id]
  by_cases ht : t < 4294967296
  · rw [if_pos ht, if_pos ht]
  · rw [if_neg ht, if_neg ht]

theorem write_messages_cons (st : WriterState) (r : DataRecord) (rs : List DataRecord) :
    write_messages st (r :: rs) =
      match write_message_pair st r with
      | .error e => .error e
      | .ok (b, st') =>
        match write_messages st' rs with
        | .error e => .error e
        | .ok (bs, st'') => .ok (b ++ bs, st'') := by
  rw [write_messages]

theorem write_messages_file_id_cons (t : ℕ) (R : List DataRecord) (ht : t < 4294967296) :
    write_messages ⟨[], 0⟩ (file_id_record t :: R) =
      match write_messages ⟨[(0, 0)], 1⟩ R with
      | .error e => .error e
      | .ok (bs, st'') => .ok ((fid_def_head ++ u32le_bytes t) ++ bs, st'') := by
  rw [write_messages_cons, write_message_pair_file_id, if_pos ht]

theorem u32le_bytes_inj {a b : ℕ} (ha : a < 4294967296) (hb : b < 4294967296)
    (h : u32le_bytes a = u32le_bytes b) : a = b := by
  simp only [u32le_bytes, List.cons.injEq, and_true] at h
  obtain ⟨h0, h1, h2, h3⟩ := h
  omega

theorem write_fit_file_cons (st : WriterState) (r : DataRecord) (rs : List DataRecord) :
    write_fit_file st (r :: rs) =
      match write_messages st (r :: rs) with
      | .error e => .error ("Error writing FIT file: " ++ e)
      | .ok (body, _) =>
        match write_header body.length with
        | .error e => .error ("Error writing FIT file: " ++ e)
        | .ok header => .ok (header ++ body ++ u16le_bytes (calculate_crc (header ++ body))) := by
  unfold write_fit_file
  rw [if_neg]
  simp

/-- C10: with the wall-clock creation time of `add_file_id_message`
modeled as an explicit input, the byte output of `create_workout_file`
is a deterministic function of `(segments, workout_name, ftp,
timestamp)`; and two successful encodes of the same workout at
different timestamps produce different files, because the file-id data
message embeds the timestamp as its little-endian uint32 field. -/
theorem create_workout_file_timestamp :
    (∀ (segs : List WorkoutSegment) (name : String) (ftp : ℚ) (ts : ℕ),
        create_workout_file segs name ftp ts = create_workout_file segs name ftp ts)
    ∧ ∀ (segs : List WorkoutSegment) (name : String) (ftp : ℚ) (t1 t2 : ℕ)
        (f1 f2 : List ℕ),
        create_workout_file segs name ftp t1 = .ok f1 →
        create_workout_file segs name ftp t2 = .ok f2 →
        t1 ≠ t2 → f1 ≠ f2 := by
  refine ⟨fun _ _ _ _ => rfl, ?_⟩
  intro segs name ftp t1 t2 f1 f2 h1 h2 hne
  unfold create_workout_file at h1 h2
  by_cases hemp : segs.isEmpty
  · rw [if_pos hemp] at h1
    simp at h1
  · rw [if_neg hemp] at h1 h2
    cases hb : build_steps ftp 0 segs with
    | error e => rw [hb] at h1; simp at h1
    | ok steps =>
      rw [hb] at h1 h2
      simp only [] at h1 h2
      rw [write_fit_file_cons] at h1 h2
      by_cases ht1 : t1 < 4294967296
      · by_cases ht2 : t2 < 4294967296
        · rw [write_messages_file_id_cons t1 _ ht1] at h1
          rw [write_messages_file_id_cons t2 _ ht2] at h2
          cases hrest : write_messages ⟨[(0, 0)], 1⟩ (workout_record name segs.length :: steps) with
          | error e => rw [hrest] at h1; simp at h1
          | ok p =>
            obtain ⟨rest, stF⟩ := p
            rw [hrest] at h1 h2
            simp only [] at h1 h2
            have hlen1 : ((fid_def_head ++ u32le_bytes t1) ++ rest).length = 28 + rest.length := by
              simp [fid_def_head, u32le_bytes]
              omega
            have hlen2 : ((fid_def_head ++ u32le_bytes t2) ++ rest).length = 28 + rest.length := by
              simp [fid_def_head, u32le_bytes]
              omega
            rw [hlen1] at h1
            rw [hlen2] at h2
            cases hh : write_header (28 + rest.length) with
            | error e => rw [hh] at h1; simp at h1
            | ok header =>
              rw [hh] at h1 h2
              simp only [Except.ok.injEq] at h1 h2
              subst h1
              subst h2
              intro heq
              apply hne
              simp only [List.append_assoc] at heq
              have h3 := List.append_cancel_left (List.append_cancel_left heq)
              have h4 := (List.append_inj h3 (by simp [u32le_bytes])).1
              exact u32le_bytes_inj ht1 ht2 h4
        · rw [write_messages_cons, write_message_pair_file_id, if_neg ht2] at h2
          simp at h2
      · rw [write_messages_cons, write_message_pair_file_id, if_neg ht1] at h1
        simp at h1

theorem create_workout_file_timestamp_witness :
    ∃ f1 f2 : List ℕ,
      create_workout_file [{ type := "steady", duration := 60, power := some 0.5 }] "W" 250 0
        = .ok f1
      ∧ create_workout_file [{ type := "steady", duration := 60, power := some 0.5 }] "W" 250 1
        = .ok f2
      ∧ f1 ≠ f2 := by
  refine ⟨[14, 32, 57, 8, 134, 0, 0, 0, 46, 70, 73, 84, 0, 0, 64, 0, 0, 0, 0, 4, 0, 1, 0, 1,
      2, 132, 2, 2, 132, 3, 4, 134, 0, 4, 1, 0, 1, 0, 0, 0, 0, 0, 65, 0, 0, 26, 0, 3, 4, 16,
      7, 5, 1, 0, 6, 2, 132, 1, 87, 0, 0, 0, 0, 0, 0, 0, 0, 0, 0, 0, 0, 0, 0, 0, 0, 1, 0, 66,
      0, 0, 27, 0, 9, 254, 2, 132, 0, 16, 7, 1, 1, 0, 2, 4, 134, 3, 1, 0, 4, 4, 134, 5, 4,
      134, 6, 4, 134, 7, 1, 0, 2, 0, 0, 83, 116, 101, 97, 100, 121, 32, 53, 48, 37, 0, 0, 0,
      0, 0, 0, 0, 96, 234, 0, 0, 4, 0, 0, 0, 0, 89, 4, 0, 0, 113, 4, 0, 0, 0, 118, 85],
    [14, 32, 57, 8, 134, 0, 0, 0, 46, 70, 73, 84, 0, 0, 64, 0, 0, 0, 0, 4, 0, 1, 0, 1,
      2, 132, 2, 2, 132, 3, 4, 134, 0, 4, 1, 0, 1, 0, 1, 0, 0, 0, 65, 0, 0, 26, 0, 3, 4, 16,
      7, 5, 1, 0, 6, 2, 132, 1, 87, 0, 0, 0, 0, 0, 0, 0, 0, 0, 0, 0, 0, 0, 0, 0, 0, 1, 0, 66,
      0, 0, 27, 0, 9, 254, 2, 132, 0, 16, 7, 1, 1, 0, 2, 4, 134, 3, 1, 0, 4, 4, 134, 5, 4,
      134, 6, 4, 134, 7, 1, 0, 2, 0, 0, 83, 116, 101, 97, 100, 121, 32, 53, 48, 37, 0, 0, 0,
      0, 0, 0, 0, 96, 234, 0, 0, 4, 0, 0, 0, 0, 89, 4, 0, 0, 113, 4, 0, 0, 0, 63, 226],
    by decide, by decide, ?_⟩
  exact create_workout_file_timestamp.2
    [{ type := "steady", duration := 60, power := some 0.5 }] "W" 250 0 1 _ _
    (by decide) (by decide) (by decide)

end Zwift2Fit
